import Mathlib

/-!
Verification of the `hatch_build.py` build hook (class `CustomBuildHook`,
method `initialize`): a shallow embedding of the hook's single lifecycle
step over an explicit filesystem state and an environment modelling the
external `cython` subprocess, together with theorems settling the
specified properties.
-/

namespace HatchBuild

/-- A filesystem: an association list from absolute path to file content.
`none` lookup means the file does not exist. -/
abbrev FS := List (String × String)

/-- Embeds `os.path.exists`: the path is bound to some content. -/
def pathExists (fs : FS) (p : String) : Bool :=
  (fs.lookup p).isSome

/-- A subprocess invocation as performed by `subprocess.run`: the argument
vector and the working directory (`cwd=`). -/
structure SubprocessCall where
  args : List String
  cwd : String
  deriving DecidableEq

/-- Outcome of attempting to run an external executable: either the process
ran and exited with a code (possibly having modified the filesystem), or the
executable could not be located (`FileNotFoundError`), leaving the
filesystem untouched. -/
inductive ToolResult where
  | exited (code : Nat) (fs : FS)
  | notFound
  deriving DecidableEq

/-- The environment: what launching a given subprocess in a given filesystem
state does. The hook treats this as an opaque external boundary. -/
abbrev ToolEnv := SubprocessCall → FS → ToolResult

/-- The exact invocation built by the hook:
`subprocess.run(["cython", "bt/core.py", "-o", "bt/core.c"], check=True, cwd=self.root)`. -/
def cythonCall (root : String) : SubprocessCall :=
  { args := ["cython", "bt/core.py", "-o", "bt/core.c"], cwd := root }

/-- Embeds `posixpath.join` restricted to two components (the stdlib
three-argument call folds this operation left to right): an absolute second
component replaces the path, otherwise the components are glued, inserting a
separator unless the first component is empty or already ends in one. -/
def posixJoin (a b : String) : String :=
  if b.data.head? = some '/' then b
  else if a.data = [] ∨ a.data.getLast? = some '/' then a ++ b
  else a ++ "/" ++ b

/-- The fallback path the hook checks:
`os.path.join(self.root, "bt", "core.c")`. -/
def core_c_path (root : String) : String :=
  posixJoin (posixJoin root "bt") "core.c"

/-- POSIX resolution of a path given to a process with working directory
`cwd`: an absolute path denotes itself, a relative path is interpreted
under `cwd`. -/
def resolveUnder (cwd p : String) : String :=
  if p.data.head? = some '/' then p else posixJoin cwd p

/-- How the step ends: normal return, or a raised `RuntimeError` carrying a
message, which aborts the host build. -/
inductive StepOutcome where
  | ok
  | fatalError (msg : String)
  deriving DecidableEq

/-- The message of the single `RuntimeError` the hook can raise (Python
concatenates the two adjacent string literals). -/
def fatalMsg : String :=
  "Cython compilation failed and no pre-compiled bt/core.c found. Please install Cython: pip install cython"

/-- Rendering of the caught exception interpolated into the failure log
line, abstracting the Python `str(e)` of `CalledProcessError` /
`FileNotFoundError`. -/
def excText (r : ToolResult) : String :=
  match r with
  | .exited code _ => "CalledProcessError: exit status " ++ toString code
  | .notFound => "FileNotFoundError"

/-- Everything observable about one run of the step: how it ended, the
filesystem afterwards, the subprocess calls it made, the paths whose
existence it read, the lines it printed, and the `build_data` mapping as it
stands when the step returns. -/
structure StepResult where
  outcome : StepOutcome
  fs : FS
  calls : List SubprocessCall
  reads : List String
  logs : List String
  build_data : List (String × String)
  deriving DecidableEq

/-- The `except` branch of the hook: log the failure, check whether the
pre-compiled `bt/core.c` exists under `self.root`, and either raise the
`RuntimeError` or succeed reusing the existing file. -/
def fallback (root : String) (build_data : List (String × String))
    (fs : FS) (errText : String) : StepResult :=
  let core_c := core_c_path root
  let failLogs : List String :=
    ["Compiling bt/core.py with Cython...",
     "Cython compilation failed or Cython not found: " ++ errText,
     "Checking if pre-compiled bt/core.c exists..."]
  if pathExists fs core_c then
    { outcome := .ok, fs := fs, calls := [cythonCall root], reads := [core_c],
      logs := failLogs ++ ["Using pre-compiled bt/core.c"],
      build_data := build_data }
  else
    { outcome := .fatalError fatalMsg, fs := fs, calls := [cythonCall root],
      reads := [core_c], logs := failLogs, build_data := build_data }

/-- Embeds `CustomBuildHook.initialize(self, version, build_data)` run with
`self.root = root` in filesystem `fs` under environment `env`: attempt the
`cython` subprocess with `check=True` (a nonzero exit raises
`CalledProcessError`, a missing executable raises `FileNotFoundError`,
both caught), falling back to the existence check. -/
def compileStep (env : ToolEnv) (root : String) (version : String)
    (build_data : List (String × String)) (fs : FS) : StepResult :=
  match env (cythonCall root) fs with
  | .exited code fs' =>
      if code = 0 then
        { outcome := .ok, fs := fs', calls := [cythonCall root], reads := [],
          logs := ["Compiling bt/core.py with Cython...",
                   "Cython compilation successful!"],
          build_data := build_data }
      else
        fallback root build_data fs' (excText (.exited code fs'))
  | .notFound =>
      fallback root build_data fs (excText .notFound)

/-- The tool invocation fails when the process exits nonzero or the
executable is not found; exit status 0 is success. -/
def toolFails (env : ToolEnv) (root : String) (fs : FS) : Bool :=
  match env (cythonCall root) fs with
  | .exited 0 _ => false
  | .exited _ _ => true
  | .notFound => true

/-- The filesystem as it stands after the tool invocation: whatever the
process left behind if it ran, the original state if the executable was
not found. -/
def fsAfterTool (env : ToolEnv) (root : String) (fs : FS) : FS :=
  match env (cythonCall root) fs with
  | .exited _ fs' => fs'
  | .notFound => fs

/-- A well-behaved environment: the tool always runs, exits 0, and writes
the output artifact under the call's working directory. -/
def envAlwaysOk (out : String) : ToolEnv :=
  fun c fs => .exited 0 ((core_c_path c.cwd, out) :: fs)

/-- An environment in which the executable is never found. -/
def envNotFound : ToolEnv :=
  fun _ _ => .notFound

/-- An environment in which the tool runs but always exits with the given
code, leaving the filesystem unchanged. -/
def envExits (code : Nat) : ToolEnv :=
  fun _ fs => .exited code fs

theorem data_append_str (s t : String) : (s ++ t).data = s.data ++ t.data :=
  String.data_append s t

theorem getLast_append_bt (l : List Char) :
    (l ++ ['b', 't']).getLast? = some 't' := by
  rw [show l ++ ['b', 't'] = (l ++ ['b']) ++ ['t'] by simp, List.getLast?_concat]

/-- C1: the step raises the fatal error iff the compiler invocation fails
(nonzero exit or executable not found) and `bt/core.c` does not exist under
the build root afterwards; both failure modes fall through to the existence
check rather than crashing. -/
theorem fatal_iff_tool_failed_and_missing (env : ToolEnv) (root v : String)
    (bd : List (String × String)) (fs : FS) :
    (∃ msg, (compileStep env root v bd fs).outcome = .fatalError msg) ↔
      (toolFails env root fs = true ∧
        pathExists (fsAfterTool env root fs) (core_c_path root) = false) := by
  unfold compileStep toolFails fsAfterTool
  cases h : env (cythonCall root) fs with
  | exited code fs' =>
    cases code with
    | zero => simp
    | succ n =>
      by_cases hp : pathExists fs' (core_c_path root) <;>
        simp [fallback, hp]
  | notFound =>
    by_cases hp : pathExists fs (core_c_path root) <;>
      simp [fallback, hp]

/-- C2: if the step returns without raising and the external tool writes
the artifact whenever it exits 0, then `bt/core.c` exists under the build
root afterwards; the resulting filesystem is exactly the one the tool left
behind, so the hook itself creates or mutates no other persistent state. -/
theorem ok_implies_core_c_exists (env : ToolEnv) (root v : String)
    (bd : List (String × String)) (fs : FS)
    (hgen : ∀ fs0 fs1, env (cythonCall root) fs0 = .exited 0 fs1 →
      pathExists fs1 (core_c_path root) = true)
    (hok : (compileStep env root v bd fs).outcome = .ok) :
    pathExists (compileStep env root v bd fs).fs (core_c_path root) = true ∧
      (compileStep env root v bd fs).fs = fsAfterTool env root fs := by
  unfold compileStep fsAfterTool at *
  cases h : env (cythonCall root) fs with
  | exited code fs' =>
    rw [h] at hok
    cases code with
    | zero => exact ⟨hgen fs fs' h, rfl⟩
    | succ n =>
      by_cases hp : pathExists fs' (core_c_path root)
      · simp [fallback, hp]
      · simp [fallback, hp] at hok
  | notFound =>
    rw [h] at hok
    by_cases hp : pathExists fs (core_c_path root)
    · simp [fallback, hp]
    · simp [fallback, hp] at hok

theorem ok_implies_core_c_exists_witness :
    pathExists (compileStep (envAlwaysOk "x") "/r" "1.0" [] []).fs
        (core_c_path "/r") = true ∧
      (compileStep (envAlwaysOk "x") "/r" "1.0" [] []).fs =
        fsAfterTool (envAlwaysOk "x") "/r" [] := by
  refine ok_implies_core_c_exists (envAlwaysOk "x") "/r" "1.0" [] []
    (fun fs0 fs1 h => ?_) (by decide)
  cases h
  simp [pathExists, List.lookup, cythonCall]

/-- C3: every run ends either in success or in the single fatal error with
its fixed remediation message; no other error escapes the step. -/
theorem outcomes_exhaustive (env : ToolEnv) (root v : String)
    (bd : List (String × String)) (fs : FS) :
    (compileStep env root v bd fs).outcome = .ok ∨
      (compileStep env root v bd fs).outcome = .fatalError fatalMsg := by
  unfold compileStep
  cases h : env (cythonCall root) fs with
  | exited code fs' =>
    cases code with
    | zero => left; rfl
    | succ n =>
      by_cases hp : pathExists fs' (core_c_path root) <;> simp [fallback, hp]
  | notFound =>
    by_cases hp : pathExists fs (core_c_path root) <;> simp [fallback, hp]

/-- C4: the hook performs no filesystem write of its own — the state it
returns is exactly the state after the tool invocation, and its only direct
filesystem operation is reading the existence of `bt/core.c` — and when the
tool fails but `bt/core.c` already exists, the step succeeds with the
artifact's content untouched. -/
theorem preexisting_core_c_reused (env : ToolEnv) (root v : String)
    (bd : List (String × String)) (fs : FS) :
    ((compileStep env root v bd fs).fs = fsAfterTool env root fs ∧
      ((compileStep env root v bd fs).reads = [] ∨
        (compileStep env root v bd fs).reads = [core_c_path root])) ∧
    (toolFails env root fs = true →
      pathExists (fsAfterTool env root fs) (core_c_path root) = true →
      (compileStep env root v bd fs).outcome = .ok ∧
        (compileStep env root v bd fs).fs.lookup (core_c_path root) =
          (fsAfterTool env root fs).lookup (core_c_path root)) := by
  unfold compileStep fsAfterTool toolFails
  cases h : env (cythonCall root) fs with
  | exited code fs' =>
    cases code with
    | zero => simp
    | succ n =>
      by_cases hp : pathExists fs' (core_c_path root) <;> simp [fallback, hp]
  | notFound =>
    by_cases hp : pathExists fs (core_c_path root) <;> simp [fallback, hp]

theorem preexisting_core_c_reused_witness :
    ((compileStep envNotFound "/r" "1.0" [] [(core_c_path "/r", "c")]).outcome
        = .ok ∧
      (compileStep envNotFound "/r" "1.0" [] [(core_c_path "/r", "c")]).fs.lookup
          (core_c_path "/r") =
        (fsAfterTool envNotFound "/r" [(core_c_path "/r", "c")]).lookup
          (core_c_path "/r")) := by
  exact (preexisting_core_c_reused envNotFound "/r" "1.0" []
    [(core_c_path "/r", "c")]).2 (by decide) (by decide)

/-- C5: the step performs exactly one subprocess call, whose working
directory is the build root and whose argument vector names the tool, the
input path `bt/core.py`, the output-redirection flag `-o`, and the output
path `bt/core.c`. -/
theorem subprocess_call_shape (env : ToolEnv) (root v : String)
    (bd : List (String × String)) (fs : FS) :
    (compileStep env root v bd fs).calls = [cythonCall root] ∧
      (cythonCall root).cwd = root ∧
      (cythonCall root).args = ["cython", "bt/core.py", "-o", "bt/core.c"] := by
  refine ⟨?_, rfl, rfl⟩
  unfold compileStep
  cases h : env (cythonCall root) fs with
  | exited code fs' =>
    cases code with
    | zero => rfl
    | succ n =>
      by_cases hp : pathExists fs' (core_c_path root) <;> simp [fallback, hp]
  | notFound =>
    by_cases hp : pathExists fs (core_c_path root) <;> simp [fallback, hp]

/-- C6: with a working tool (always exits 0 and writes the artifact),
running the step twice in succession on the same build root succeeds both
times and leaves `bt/core.c` existing after each run. -/
theorem idempotent_with_working_tool (env : ToolEnv) (root v : String)
    (bd : List (String × String)) (fs : FS)
    (hwork : ∀ fs0, ∃ fs1, env (cythonCall root) fs0 = .exited 0 fs1 ∧
      pathExists fs1 (core_c_path root) = true) :
    (compileStep env root v bd fs).outcome = .ok ∧
      pathExists (compileStep env root v bd fs).fs (core_c_path root) = true ∧
      (compileStep env root v bd (compileStep env root v bd fs).fs).outcome
        = .ok ∧
      pathExists (compileStep env root v bd
        (compileStep env root v bd fs).fs).fs (core_c_path root) = true := by
  obtain ⟨fs1, h1, hp1⟩ := hwork fs
  obtain ⟨fs2, h2, hp2⟩ := hwork fs1
  refine ⟨?_, ?_, ?_, ?_⟩ <;> simp [compileStep, h1, h2, hp1, hp2]

theorem idempotent_with_working_tool_witness :
    (compileStep (envAlwaysOk "x") "/r" "1.0" [] []).outcome = .ok ∧
      pathExists (compileStep (envAlwaysOk "x") "/r" "1.0" [] []).fs
        (core_c_path "/r") = true ∧
      (compileStep (envAlwaysOk "x") "/r" "1.0" []
        (compileStep (envAlwaysOk "x") "/r" "1.0" [] []).fs).outcome = .ok ∧
      pathExists (compileStep (envAlwaysOk "x") "/r" "1.0" []
          (compileStep (envAlwaysOk "x") "/r" "1.0" [] []).fs).fs
        (core_c_path "/r") = true := by
  refine idempotent_with_working_tool (envAlwaysOk "x") "/r" "1.0" [] []
    (fun fs0 => ⟨(core_c_path "/r", "x") :: fs0, rfl, ?_⟩)
  simp [pathExists, List.lookup, cythonCall]

/-- C7: when the subprocess exits 0, the step succeeds immediately: it logs
the start and success lines only, reads the existence of no path, and the
fallback existence check is never reached. -/
theorem success_skips_existence_check (env : ToolEnv) (root v : String)
    (bd : List (String × String)) (fs fs' : FS)
    (h : env (cythonCall root) fs = .exited 0 fs') :
    (compileStep env root v bd fs).outcome = .ok ∧
      (compileStep env root v bd fs).reads = [] ∧
      (compileStep env root v bd fs).logs =
        ["Compiling bt/core.py with Cython...",
         "Cython compilation successful!"] ∧
      (compileStep env root v bd fs).fs = fs' := by
  simp [compileStep, h]

theorem success_skips_existence_check_witness :
    (compileStep (envAlwaysOk "x") "/r" "1.0" [] []).outcome = .ok ∧
      (compileStep (envAlwaysOk "x") "/r" "1.0" [] []).reads = [] ∧
      (compileStep (envAlwaysOk "x") "/r" "1.0" [] []).logs =
        ["Compiling bt/core.py with Cython...",
         "Cython compilation successful!"] ∧
      (compileStep (envAlwaysOk "x") "/r" "1.0" [] []).fs =
        [(core_c_path "/r", "x")] :=
  success_skips_existence_check (envAlwaysOk "x") "/r" "1.0" [] []
    [(core_c_path "/r", "x")] rfl

/-- C8: the step ignores its `version` and `build_data` arguments — two
runs on the same build root, filesystem and environment that differ only in
those arguments perform the same subprocess call and existence reads, print
the same lines, and end with the same outcome and filesystem. -/
theorem independent_of_version_and_build_data (env : ToolEnv) (root : String)
    (fs : FS) (v1 v2 : String) (bd1 bd2 : List (String × String)) :
    (compileStep env root v1 bd1 fs).outcome
        = (compileStep env root v2 bd2 fs).outcome ∧
      (compileStep env root v1 bd1 fs).fs = (compileStep env root v2 bd2 fs).fs ∧
      (compileStep env root v1 bd1 fs).calls
        = (compileStep env root v2 bd2 fs).calls ∧
      (compileStep env root v1 bd1 fs).reads
        = (compileStep env root v2 bd2 fs).reads ∧
      (compileStep env root v1 bd1 fs).logs
        = (compileStep env root v2 bd2 fs).logs := by
  unfold compileStep
  cases h : env (cythonCall root) fs with
  | exited code fs' =>
    cases code with
    | zero => simp
    | succ n =>
      by_cases hp : pathExists fs' (core_c_path root) <;> simp [fallback, hp]
  | notFound =>
    by_cases hp : pathExists fs (core_c_path root) <;> simp [fallback, hp]

/-- C9: for every build root, the path the fallback check examines,
`os.path.join(root, "bt", "core.c")`, is the very file the subprocess is
told to write: the relative output argument `bt/core.c` resolved under the
working directory `root`. -/
theorem fallback_path_matches_tool_output (root : String) :
    resolveUnder root "bt/core.c" = core_c_path root := by
  by_cases hroot : root.data = [] ∨ root.data.getLast? = some '/'
  · have h1 : posixJoin root "bt" = root ++ "bt" := by
      unfold posixJoin
      rw [if_neg (by decide), if_pos hroot]
    have h2 : (root ++ "bt").data = root.data ++ ['b', 't'] := by
      rw [data_append_str]
    have hne : ¬((root ++ "bt").data = [] ∨
        (root ++ "bt").data.getLast? = some '/') := by
      rw [h2]
      push_neg
      exact ⟨by simp, by rw [getLast_append_bt]; decide⟩
    have h3 : core_c_path root = root ++ "bt" ++ "/" ++ "core.c" := by
      unfold core_c_path
      rw [h1]
      unfold posixJoin
      rw [if_neg (by decide), if_neg hne]
    have h4 : resolveUnder root "bt/core.c" = root ++ "bt/core.c" := by
      unfold resolveUnder posixJoin
      rw [if_neg (by decide), if_neg (by decide), if_pos hroot]
    rw [h3, h4]
    apply String.ext
    simp [data_append_str, List.append_assoc]
  · have h1 : posixJoin root "bt" = root ++ "/" ++ "bt" := by
      unfold posixJoin
      rw [if_neg (by decide), if_neg hroot]
    have h2 : (root ++ "/" ++ "bt").data = (root.data ++ ['/']) ++ ['b', 't'] := by
      rw [data_append_str, data_append_str]
    have hne : ¬((root ++ "/" ++ "bt").data = [] ∨
        (root ++ "/" ++ "bt").data.getLast? = some '/') := by
      rw [h2]
      push_neg
      exact ⟨by simp, by rw [getLast_append_bt]; decide⟩
    have h3 : core_c_path root = root ++ "/" ++ "bt" ++ "/" ++ "core.c" := by
      unfold core_c_path
      rw [h1]
      unfold posixJoin
      rw [if_neg (by decide), if_neg hne]
    have h4 : resolveUnder root "bt/core.c" = root ++ "/" ++ "bt/core.c" := by
      unfold resolveUnder posixJoin
      rw [if_neg (by decide), if_neg (by decide), if_neg hroot]
    rw [h3, h4]
    apply String.ext
    simp [data_append_str, List.append_assoc]

/-- C10: the step never mutates the `build_data` mapping: whatever the
environment, filesystem and outcome, `build_data` is unchanged when the
step returns. -/
theorem build_data_unchanged (env : ToolEnv) (root v : String)
    (bd : List (String × String)) (fs : FS) :
    (compileStep env root v bd fs).build_data = bd := by
  unfold compileStep
  cases h : env (cythonCall root) fs with
  | exited code fs' =>
    cases code with
    | zero => rfl
    | succ n =>
      by_cases hp : pathExists fs' (core_c_path root) <;> simp [fallback, hp]
  | notFound =>
    by_cases hp : pathExists fs (core_c_path root) <;> simp [fallback, hp]

end HatchBuild
